import Mathlib

/-!
Shallow embedding of `src/bot.py`, a Telegram recurring-billing bot
(onboarding conversation, charge issuance against the Atlas gateway,
2h retry jobs on the billing day, message-replacement protocol).

Modelling conventions:
* Python dicts keyed by user id become association lists over `Int`.
* Network I/O (Telegram sends/deletes/edits, gateway calls, log lines)
  is recorded as a trace of `Eff` events; responses of the gateway and
  the success of Telegram edit calls are oracle inputs to each handler.
* Python floats are exact rationals plus `inf`/`-inf`/`nan`; the binary
  rounding of parsed literals is not modelled.
* Message ids are allocated from a counter starting at 1, so a tracked
  id is never the falsy `0`.
-/

abbrev UserId := Int

/-- Association-list lookup; models Python `dict.get(k)`. -/
def afind {β : Type} : List (Int × β) → Int → Option β
  | [], _ => none
  | p :: t, k => if p.1 = k then some p.2 else afind t k

/-- Association-list update; models Python `dict[k] = v`.  Insertion order
is not preserved, which no modelled behaviour observes. -/
def ainsert {β : Type} (l : List (Int × β)) (k : Int) (v : β) : List (Int × β) :=
  (k, v) :: l.filter (fun p => !decide (p.1 = k))

/-- Association-list removal; models Python `dict.pop(k, None)` (the removal part). -/
def aerase {β : Type} (l : List (Int × β)) (k : Int) : List (Int × β) :=
  l.filter (fun p => !decide (p.1 = k))

/-- Number of entries stored under key `k`. -/
def countKey {β : Type} (l : List (Int × β)) (k : Int) : Nat :=
  (l.filter (fun p => decide (p.1 = k))).length

/-- Exact rationals as unreduced fractions with positive denominator,
used so that every arithmetic step is kernel-computable (no gcd).
Semantic equality is `pqEq`; the Lean `Eq` on `PyQ` is representation
equality and is only used to state concrete evaluation results. -/
structure PyQ where
  num : Int
  den : Int
  deriving DecidableEq

/-- Build a fraction, normalising the sign into the numerator. -/
def mkPQ (n d : Int) : PyQ :=
  if d < 0 then { num := -n, den := -d } else { num := n, den := d }

/-- Embed an integer. -/
def pqOfInt (n : Int) : PyQ := { num := n, den := 1 }

def pqAdd (a b : PyQ) : PyQ :=
  { num := a.num * b.den + b.num * a.den, den := a.den * b.den }

def pqSub (a b : PyQ) : PyQ :=
  { num := a.num * b.den - b.num * a.den, den := a.den * b.den }

def pqMul (a b : PyQ) : PyQ :=
  { num := a.num * b.num, den := a.den * b.den }

def pqDiv (a b : PyQ) : PyQ :=
  mkPQ (a.num * b.den) (a.den * b.num)

/-- Cross-multiplication order (valid for positive denominators). -/
def pqLt (a b : PyQ) : Bool := decide (a.num * b.den < b.num * a.den)

/-- Cross-multiplication equality. -/
def pqEq (a b : PyQ) : Bool := decide (a.num * b.den = b.num * a.den)

/-- Floor of a fraction (denominator positive). -/
def pqFloor (x : PyQ) : Int := x.num.fdiv x.den

/-- Python float values as produced by `float(...)`.  Finite values are
exact rationals; the binary rounding of parsed literals is not modelled. -/
inductive PyFloat where
  | finite (q : PyQ)
  | inf
  | negInf
  | nan
  deriving DecidableEq

/-- Python `<` on floats: `nan` is incomparable to everything. -/
def pyLt : PyFloat → PyFloat → Bool
  | .nan, _ => false
  | _, .nan => false
  | .negInf, .negInf => false
  | .negInf, _ => true
  | _, .negInf => false
  | .inf, _ => false
  | .finite _, .inf => true
  | .finite a, .finite b => pqLt a b

/-- Python `==` on floats: `nan` is not equal to anything, itself included. -/
def pyFEq : PyFloat → PyFloat → Bool
  | .inf, .inf => true
  | .negInf, .negInf => true
  | .finite a, .finite b => pqEq a b
  | _, _ => false

/-- Python `<=` on floats. -/
def pyLe (a b : PyFloat) : Bool := pyLt a b || pyFEq a b

/-- Python (ASCII) whitespace, for `str.strip()` / `float()` stripping.
(Unicode whitespace is not modelled.) -/
def isPySpace (c : Char) : Bool :=
  c == ' ' || c == '\t' || c == '\n' || c == '\r' || c == '\x0b' || c == '\x0c'

/-- Python `str.strip()`: drop leading and trailing whitespace.
(Core `String.trim` is byte-based and not kernel-computable, so this is
implemented over the character list.) -/
def pyStrip (s : String) : String :=
  String.mk (((s.data.dropWhile isPySpace).reverse.dropWhile isPySpace).reverse)

/-- If `pat` is a prefix of `l`, return the rest. -/
def dropPrefixQ : List Char → List Char → Option (List Char)
  | [], rest => some rest
  | _, [] => none
  | p :: ps, c :: cs => if p = c then dropPrefixQ ps cs else none

/-- Fuel-bounded replace-all over character lists (fuel `≥` list length
suffices for the nonempty patterns the bot uses). -/
def replaceFuel (pat repl : List Char) : Nat → List Char → List Char
  | _, [] => []
  | 0, l => l
  | Nat.succ n, c :: cs =>
      match dropPrefixQ pat (c :: cs) with
      | some rest =>
          if pat.isEmpty then c :: replaceFuel pat repl n cs
          else repl ++ replaceFuel pat repl n rest
      | none => c :: replaceFuel pat repl n cs

/-- Python `str.replace(pat, repl)` (kernel-computable). -/
def pyReplace (s pat repl : String) : String :=
  String.mk (replaceFuel pat.data repl.data s.data.length s.data)

/-- Fuel-bounded split on a nonempty separator, accumulating the current
segment in reverse. -/
def splitFuel (sep : List Char) : Nat → List Char → List Char → List (List Char)
  | _, acc, [] => [acc.reverse]
  | 0, acc, l => [acc.reverse ++ l]
  | Nat.succ n, acc, c :: cs =>
      match dropPrefixQ sep (c :: cs) with
      | some rest => acc.reverse :: splitFuel sep n [] rest
      | none => splitFuel sep n (c :: acc) cs

/-- Python-style `str.split(sep)` / Lean `String.splitOn` for nonempty
separators (kernel-computable). -/
def pySplitOn (s sep : String) : List String :=
  (splitFuel sep.data s.data.length [] s.data).map String.mk

/-- `str.startswith(pre)`. -/
def pyStartsWith (s pre : String) : Bool := pre.data.isPrefixOf s.data

/-- `s[:n]` on strings (kernel-computable). -/
def pyTake (s : String) (n : Nat) : String := String.mk (s.data.take n)

/-- A run of digits as accepted inside a Python numeric literal:
nonempty, only digits and underscores, and every underscore strictly
between two digits (no leading/trailing/double underscore). -/
def pyDigitsOk (cs : List Char) : Bool :=
  decide (cs ≠ []) &&
  cs.all (fun c => c.isDigit || c == '_') &&
  decide (cs.head? ≠ some '_') &&
  decide (cs.getLast? ≠ some '_') &&
  (cs.zip cs.tail).all (fun p => !(p.1 == '_' && p.2 == '_'))

/-- Numeric value of a digit run (underscores skipped). -/
def digitsToNat (cs : List Char) : Nat :=
  (cs.filter (fun c => !(c == '_'))).foldl (fun a c => 10 * a + (c.toNat - '0'.toNat)) 0

/-- Strip one optional leading sign, returning the sign as `1` or `-1`. -/
def parseSign : List Char → Int × List Char
  | '+' :: r => (1, r)
  | '-' :: r => (-1, r)
  | r => (1, r)

/-- Python `int(s)` on strings: optional surrounding whitespace, optional
sign, base-10 digit run.  (Non-ASCII digits are not modelled.) -/
def pyParseInt (s : String) : Option Int :=
  let t := pyStrip s
  let (sg, cs) := parseSign t.data
  if pyDigitsOk cs then some (sg * (digitsToNat cs : Int)) else none

/-- Mantissa of a float literal: `digits`, `digits.`, `.digits` or
`digits.digits`, with underscore rules per digit run. -/
def parseMantissa (m : String) : Option PyQ :=
  match pySplitOn m "." with
  | [ip] => if pyDigitsOk ip.data then some (pqOfInt (digitsToNat ip.data)) else none
  | [ip, fp] =>
      if (ip == "" || pyDigitsOk ip.data) && (fp == "" || pyDigitsOk fp.data)
          && !(ip == "" && fp == "") then
        some (pqAdd (pqOfInt (digitsToNat ip.data))
          (pqDiv (pqOfInt (digitsToNat fp.data))
            (pqOfInt (10 ^ (fp.data.filter (fun c => !(c == '_'))).length))))
      else none
  | _ => none

/-- Exponent part of a float literal (after `e`): optional sign plus digit run. -/
def parseExponent (e : String) : Option Int :=
  let (sg, cs) := parseSign e.data
  if pyDigitsOk cs then some (sg * (digitsToNat cs : Int)) else none

/-- Scale a fraction by `10 ^ e` for a possibly negative exponent. -/
def pqScale10 (q : PyQ) (e : Int) : PyQ :=
  if 0 ≤ e then pqMul q (pqOfInt (10 ^ e.toNat))
  else pqDiv q (pqOfInt (10 ^ (-e).toNat))

/-- Python `float(s)` on strings: optional whitespace and sign, then
`inf`/`infinity`/`nan` (case-insensitive) or a decimal literal with an
optional exponent. -/
def pyParseFloat (s : String) : Option PyFloat :=
  let t := pyStrip s
  let (sg, cs) := parseSign t.data
  let low := String.mk (cs.map Char.toLower)
  if low = "inf" || low = "infinity" then
    some (if sg = 1 then .inf else .negInf)
  else if low = "nan" then
    some .nan
  else
    match pySplitOn low "e" with
    | [m] => (parseMantissa m).map (fun q => .finite (pqMul (pqOfInt sg) q))
    | [m, ex] => do
        let q ← parseMantissa m
        let e ← parseExponent ex
        some (.finite (pqScale10 (pqMul (pqOfInt sg) q) e))
    | _ => none

/-- Round-half-even on exact fractions; models CPython `round(x, 2)` and
`"%.2f"` formatting up to the unmodelled binary representation error. -/
def roundHalfEven (x : PyQ) : Int :=
  let f := pqFloor x
  let rnum := x.num - f * x.den
  if 2 * rnum < x.den then f
  else if x.den < 2 * rnum then f + 1
  else if f % 2 = 0 then f else f + 1

/-- Python `round(v, 2)`. -/
def pyRound2 : PyFloat → PyFloat
  | .finite q => .finite (pqDiv (pqOfInt (roundHalfEven (pqMul q (pqOfInt 100)))) (pqOfInt 100))
  | x => x

/-- Left-pad a natural below 100 to two digits. -/
def pad2 (n : Nat) : String :=
  if n < 10 then "0" ++ toString n else toString n

/-- `formatar_valor_brl` (src/bot.py:89-90): `f"{valor:.2f}"`. -/
def formatar_valor_brl : PyFloat → String
  | .finite q =>
      let c := roundHalfEven (pqMul q (pqOfInt 100))
      let a := c.natAbs
      (if c < 0 then "-" else "") ++ toString (a / 100) ++ "." ++ pad2 (a % 100)
  | .inf => "inf"
  | .negInf => "-inf"
  | .nan => "nan"

/-- A stored subscriber profile; value of `clientes[str(user_id)]`
(src/bot.py:124-131).  The store is keyed by `str(user_id)` in Python and
read back with `int(uid)`; since `int ∘ str = id` on the ids the bot
writes, the embedding keys it by the integer id directly.  `dia_pagamento`
is `Option` because `receber_valor` stores `context.user_data.get("dia")`,
which can be `None`. -/
structure Cliente where
  username : String
  dia_pagamento : Option Int
  valor : PyFloat
  ativo : Bool
  deriving DecidableEq

/-- Kind of a repeating job in the job queue. -/
inductive JobKind where
  | retry
  | cobranca
  deriving DecidableEq

/-- A scheduled repeating job (`context.job_queue.run_repeating`). -/
structure Job where
  id : Nat
  name : String
  uid : UserId
  kind : JobKind
  deriving DecidableEq

/-- Observable I/O of a handler run: Telegram calls, gateway calls and
log lines.  Gateway-create events are tagged with the subscriber on whose
behalf the charge is issued; log lines are recorded structurally. -/
inductive Eff where
  | sendText (chat : UserId) (text : String)
  | sendPhoto (chat : UserId) (caption : String)
  | editMedia (chat : UserId) (mid : Nat)
  | editCaption (chat : UserId) (mid : Nat) (caption : String)
  | deleteMsg (chat : UserId) (mid : Nat)
  | answerCallback
  | gatewayCreate (uid : UserId) (amount : PyFloat)
  | gatewayStatus (pid : String)
  | logCreateReq (amount : PyFloat)
  | logCreateResp (code : Nat) (body : String)
  | logError (msg : String)
  deriving DecidableEq

/-- The module-level mutable state of src/bot.py: the five global dicts
(lines 75-82 and 444-446), the JSON-backed subscriber store, the per-user
`context.user_data["dia"]` slot, the job queue, and the id counters. -/
structure BotState where
  user_states : List (UserId × Option String)
  last_message_id : List (UserId × Nat)
  last_payment_id : List (UserId × String)
  paid_flags : List (UserId × Bool)
  last_msg_ids : List (UserId × Nat)
  recurring_jobs : List (UserId × Nat)
  clientes : List (UserId × Cliente)
  user_data_dia : List (UserId × Int)
  jobs : List Job
  next_job_id : Nat
  next_msg_id : Nat
  deriving DecidableEq

/-- The state at process start: every dict empty. -/
def BotState.empty : BotState :=
  { user_states := [], last_message_id := [], last_payment_id := [],
    paid_flags := [], last_msg_ids := [], recurring_jobs := [],
    clientes := [], user_data_dia := [], jobs := [],
    next_job_id := 0, next_msg_id := 1 }

/-- `send_or_replace_text` (src/bot.py:280-289): best-effort delete of the
message tracked in `last_message_id`, then send, then track the new id.
The delete attempt is recorded even when Telegram rejects it (the failure
is swallowed by `except: pass` and changes nothing). -/
def send_or_replace_text (chat_id : UserId) (text : String) (s : BotState) :
    BotState × List Eff :=
  let delEffs := match afind s.last_message_id chat_id with
    | some mid => if mid = 0 then [] else [Eff.deleteMsg chat_id mid]
    | none => []
  let m := s.next_msg_id
  ({ s with last_message_id := ainsert s.last_message_id chat_id m,
            next_msg_id := m + 1 },
   delEffs ++ [Eff.sendText chat_id text])

/-- `send_or_replace_photo` (src/bot.py:291-310): try to edit the tracked
message media in place (keeping its id); on edit failure delete it
(best-effort) and send a fresh photo; `editOk` is the oracle for whether
the Telegram edit call succeeds. -/
def send_or_replace_photo (chat_id : UserId) (caption : String) (editOk : Bool)
    (s : BotState) : BotState × List Eff :=
  match afind s.last_message_id chat_id with
  | some mid =>
      if mid = 0 then
        let m := s.next_msg_id
        ({ s with last_message_id := ainsert s.last_message_id chat_id m,
                  next_msg_id := m + 1 },
         [Eff.sendPhoto chat_id caption])
      else if editOk then
        (s, [Eff.editMedia chat_id mid])
      else
        let m := s.next_msg_id
        ({ s with last_message_id := ainsert s.last_message_id chat_id m,
                  next_msg_id := m + 1 },
         [Eff.editMedia chat_id mid, Eff.deleteMsg chat_id mid,
          Eff.sendPhoto chat_id caption])
  | none =>
      let m := s.next_msg_id
      ({ s with last_message_id := ainsert s.last_message_id chat_id m,
                next_msg_id := m + 1 },
       [Eff.sendPhoto chat_id caption])

/-- `_delete_previous_and_send_text` (src/bot.py:449-465): same protocol
as `send_or_replace_text` but over the separate `last_msg_ids` dict. -/
def delete_previous_and_send_text (chat_id : UserId) (text : String) (s : BotState) :
    BotState × List Eff :=
  let delEffs := match afind s.last_msg_ids chat_id with
    | some mid => if mid = 0 then [] else [Eff.deleteMsg chat_id mid]
    | none => []
  let m := s.next_msg_id
  ({ s with last_msg_ids := ainsert s.last_msg_ids chat_id m,
            next_msg_id := m + 1 },
   delEffs ++ [Eff.sendText chat_id text])

/-- `_delete_previous_and_send_photo` (src/bot.py:468-485). -/
def delete_previous_and_send_photo (chat_id : UserId) (caption : String) (s : BotState) :
    BotState × List Eff :=
  let delEffs := match afind s.last_msg_ids chat_id with
    | some mid => if mid = 0 then [] else [Eff.deleteMsg chat_id mid]
    | none => []
  let m := s.next_msg_id
  ({ s with last_msg_ids := ainsert s.last_msg_ids chat_id m,
            next_msg_id := m + 1 },
   delEffs ++ [Eff.sendPhoto chat_id caption])

/-- Raw outcome of the gateway status lookup (`requests.get` in
`verificar_pagamento`): HTTP success flag, body text and decoded
`status` field.  A transport or JSON-decoding exception is the
`Except.error` case at the call site. -/
structure StatusHttp where
  ok : Bool
  text : String
  status : Option String
  deriving DecidableEq

/-- The part of `verificar_pagamento`'s dict result the callers use. -/
structure VerifRes where
  success : Bool
  paid : Bool
  deriving DecidableEq

/-- `verificar_pagamento` (src/bot.py:191-202): one gateway status call;
non-ok HTTP or an exception yields `success := false`; otherwise
`paid := (status == "PAID")`. -/
def verificar_pagamento (payment_id : String) (h : Except String StatusHttp) :
    VerifRes × List Eff :=
  match h with
  | .error e =>
      ({ success := false, paid := false },
       [Eff.gatewayStatus payment_id,
        Eff.logError ("verificar_pagamento erro: " ++ e)])
  | .ok r =>
      if r.ok then
        ({ success := true, paid := r.status = some "PAID" },
         [Eff.gatewayStatus payment_id])
      else
        ({ success := false, paid := false }, [Eff.gatewayStatus payment_id])

/-- Raw outcome of the gateway create-charge call (`requests.post` in
`gerar_cobranca`): HTTP success flag, status code, body text, and the
three decoded response fields.  A transport/JSON exception is the
`Except.error` case at the call site. -/
structure CreateHttp where
  ok : Bool
  status_code : Nat
  text : String
  id : Option String
  qrCode : Option String
  qrCodeImage : Option String
  deriving DecidableEq

/-- Python truthiness of an optional string (`None` and `""` are falsy). -/
def truthy : Option String → Bool
  | none => false
  | some s => !s.isEmpty

/-- Remove every job named `retry_{user_id}` from the queue and schedule a
fresh one; the scheduling block of `gerar_cobranca` (src/bot.py:259-270). -/
def scheduleRetryJob (user_id : UserId) (s : BotState) : BotState :=
  { s with
    jobs := s.jobs.filter (fun j => !(j.name == "retry_" ++ toString user_id))
            ++ [{ id := s.next_job_id, name := "retry_" ++ toString user_id,
                  uid := user_id, kind := JobKind.retry }],
    next_job_id := s.next_job_id + 1 }

/-- `gerar_cobranca` (src/bot.py:204-277).  Builds the payload (amount
rounded to 2 decimals), calls the gateway, and
* on a raised exception sends a generic internal-error text and returns
  `none`;
* on non-ok HTTP sends the user an error text embedding the status code
  and raw body, and returns `none`;
* on a response missing any of `id`/`qrCode`/`qrCodeImage` (absent or
  empty) sends an invalid-response text and returns `none`;
* otherwise sends the banner photo (replacing the previous message),
  records the new `last_payment_id`, clears `paid_flags`, and if
  `schedule_retries` re-arms the 2h `retry_{user_id}` job.
The `username` argument is unused by the source body as well. -/
def gerar_cobranca (user_id : UserId) (_username : String) (valor : PyFloat)
    (schedule_retries : Bool) (outcome : Except String CreateHttp) (editOk : Bool)
    (s : BotState) : Option String × BotState × List Eff :=
  let valor_formatado := pyRound2 valor
  let e0 := [Eff.logCreateReq valor_formatado, Eff.gatewayCreate user_id valor_formatado]
  match outcome with
  | .error e =>
      let r1 := send_or_replace_text user_id
        ("❌ Erro interno ao gerar cobrança: " ++ e) s
      (none, r1.1, e0 ++ r1.2)
  | .ok r =>
      let e0 := e0 ++ [Eff.logCreateResp r.status_code (pyTake r.text 500)]
      if !r.ok then
        let r1 := send_or_replace_text user_id
          ("❌ Erro ao gerar cobrança.\n\nCódigo: " ++ toString r.status_code
            ++ "\n" ++ r.text) s
        (none, r1.1, e0 ++ r1.2)
      else if !(truthy r.qrCodeImage && truthy r.qrCode && truthy r.id) then
        let r1 := send_or_replace_text user_id "❌ Resposta inválida da API." s
        (none, r1.1, e0 ++ r1.2)
      else
        let payment_id := r.id.getD ""
        let r1 := send_or_replace_photo user_id " " editOk s
        let s2 := { r1.1 with
          last_payment_id := ainsert (r1.1).last_payment_id user_id payment_id,
          paid_flags := ainsert (r1.1).paid_flags user_id false }
        let s3 := if schedule_retries then scheduleRetryJob user_id s2 else s2
        (some payment_id, s3, e0 ++ r1.2)

/-- Remove the job with the given queue id (`context.job.schedule_removal()`). -/
def removeJob (jobId : Nat) (s : BotState) : BotState :=
  { s with jobs := s.jobs.filter (fun j => !(j.id == jobId)) }

/-- `retry_cobranca_job` (src/bot.py:313-346), the 2h retry tick created at
issuance time.  `jobId` identifies the running job itself; `statusHttp`
and `createHttp` are the gateway oracles for this tick. -/
def retry_cobranca_job (user_id : UserId) (jobId : Nat)
    (statusHttp : Except String StatusHttp) (createHttp : Except String CreateHttp)
    (editOk : Bool) (s : BotState) : BotState × List Eff :=
  match afind s.clientes user_id with
  | none => (removeJob jobId s, [])
  | some cliente =>
      if (afind s.paid_flags user_id).getD false then
        (removeJob jobId s, [])
      else
        match afind s.last_payment_id user_id with
        | some pid =>
            let vr := verificar_pagamento pid statusHttp
            if (vr.1).success && (vr.1).paid then
              let s1 := { s with paid_flags := ainsert s.paid_flags user_id true }
              let r2 := send_or_replace_text user_id
                "✅ *Pagamento confirmado!*\n\nObrigado! 🎉" s1
              (removeJob jobId r2.1, vr.2 ++ r2.2)
            else
              let g := gerar_cobranca user_id cliente.username cliente.valor
                false createHttp editOk s
              (g.2.1, vr.2 ++ g.2.2)
        | none =>
            let g := gerar_cobranca user_id cliente.username cliente.valor
              false createHttp editOk s
            (g.2.1, g.2.2)

/-- `start` (src/bot.py:349-353). -/
def start_handler (uid : UserId) (first_name : String) (s : BotState) :
    BotState × List Eff :=
  let s1 := { s with user_states := ainsert s.user_states uid (some "day") }
  send_or_replace_text uid
    ("Bem-vindo, *" ++ first_name ++ "*!\n\n📅 Qual dia do mês você deseja pagar?") s1

/-- `receber_dia` (src/bot.py:355-365): `int(text.strip())`; a parse
failure or a day outside 1..31 re-prompts without any other mutation;
otherwise stores the day, moves to the "amount" state and prompts. -/
def receber_dia (uid : UserId) (text : String) (s : BotState) : BotState × List Eff :=
  match pyParseInt text with
  | none => send_or_replace_text uid "Digite apenas números." s
  | some dia =>
      if 1 ≤ dia ∧ dia ≤ 31 then
        let s1 := { s with
          user_data_dia := ainsert s.user_data_dia uid dia,
          user_states := ainsert s.user_states uid (some "amount") }
        send_or_replace_text uid "💵 Qual o valor (até 3000)?" s1
      else
        send_or_replace_text uid "Digite um dia entre 1 e 31." s

/-- Render `f"Dia: *{dia}*"` for the stored optional day. -/
def optDiaStr : Option Int → String
  | none => "None"
  | some d => toString d

/-- `receber_valor` (src/bot.py:367-391): `float(text.replace(",", "."))`;
a parse failure re-prompts "Digite apenas números.", a value outside
(0, 3000] re-prompts "Valor inválido.", both without mutating anything
else; otherwise the profile is saved, the conversation returns to the
idle (`None`) state, and if today is the configured day a charge is
issued with retries armed. -/
def receber_valor (uid : UserId) (username : String) (text : String) (today_day : Int)
    (createHttp : Except String CreateHttp) (editOk : Bool) (s : BotState) :
    BotState × List Eff :=
  match pyParseFloat (pyReplace text "," ".") with
  | none => send_or_replace_text uid "Digite apenas números." s
  | some valor =>
      if pyLt (PyFloat.finite (pqOfInt 0)) valor && pyLe valor (PyFloat.finite (pqOfInt 3000)) then
        let dia := afind s.user_data_dia uid
        let novo : Cliente :=
          { username := username, dia_pagamento := dia, valor := valor, ativo := true }
        let s1 := { s with clientes := ainsert s.clientes uid novo }
        let s2 := { s1 with user_states := ainsert s1.user_states uid none }
        let r3 := send_or_replace_text uid
          ("✅ Configurado!\nDia: *" ++ optDiaStr dia ++ "*\nValor: *R$ "
            ++ formatar_valor_brl valor ++ "*") s2
        if dia = some today_day then
          let r4 := send_or_replace_text uid "⏳ Gerando cobrança..." r3.1
          let g := gerar_cobranca uid username valor true createHttp editOk r4.1
          (g.2.1, r3.2 ++ r4.2 ++ g.2.2)
        else
          (r3.1, r3.2)
      else
        send_or_replace_text uid "Valor inválido." s

/-- `handle_text` (src/bot.py:393-400): route free text by the per-user
conversation state. -/
def handle_text (uid : UserId) (username : String) (text : String) (today_day : Int)
    (createHttp : Except String CreateHttp) (editOk : Bool) (s : BotState) :
    BotState × List Eff :=
  let estado := (afind s.user_states uid).join
  if estado = some "day" then
    receber_dia uid text s
  else if estado = some "amount" then
    receber_valor uid username text today_day createHttp editOk s
  else
    send_or_replace_text uid "Use /start para iniciar." s

/-- Input carried by a Telegram callback query (`update.callback_query`). -/
structure CallbackIn where
  data : String
  from_user : UserId
  message_id : Nat
  deriving DecidableEq

/-- `recurring_jobs.pop(chat_id, None)` followed by
`job.schedule_removal()` when a job was tracked. -/
def popRecurringJob (u : UserId) (s : BotState) : BotState :=
  match afind s.recurring_jobs u with
  | none => s
  | some jid =>
      { s with recurring_jobs := aerase s.recurring_jobs u,
               jobs := s.jobs.filter (fun j => !(j.id == jid)) }

/-- The FIRST `verificar_callback` definition (src/bot.py:403-440).  It is
dead code: the second definition of the same name (src/bot.py:527-571)
shadows it before `main` registers the handler.  On a settled status it
sets `paid_flags[user]` and cancels every `retry_{user}` job; on an
unsettled status it re-attaches the button, editing the caption of the
tracked message when possible (`editCapOk` oracle). -/
def verificar_callback_shadowed (q : CallbackIn) (statusHttp : Except String StatusHttp)
    (editCapOk : Bool) (s : BotState) : BotState × List Eff :=
  let e0 := [Eff.answerCallback]
  if pyStartsWith q.data "verificar_" then
    let payment_id := pyReplace q.data "verificar_" ""
    let vr := verificar_pagamento payment_id statusHttp
    if (vr.1).success && (vr.1).paid then
      let s1 := { s with
        paid_flags := ainsert s.paid_flags q.from_user true,
        jobs := s.jobs.filter (fun j => !(j.name == "retry_" ++ toString q.from_user)) }
      let r2 := send_or_replace_text q.from_user
        "✅ *Pagamento confirmado!*\n\nObrigado! 🎉" s1
      (r2.1, e0 ++ vr.2 ++ r2.2)
    else
      let texto := "⚠️ *Pagamento não localizado.*\n\nSe isso for um erro, contate o suporte e envie seu comprovante.\nCaso não tenha efetuado o pagamento, realize-o e toque novamente no botão."
      match afind s.last_message_id q.from_user with
      | some mid =>
          if mid ≠ 0 ∧ editCapOk then
            (s, e0 ++ vr.2 ++ [Eff.editCaption q.from_user mid texto])
          else
            let r2 := send_or_replace_text q.from_user texto s
            (r2.1, e0 ++ vr.2 ++ r2.2)
      | none =>
          let r2 := send_or_replace_text q.from_user texto s
          (r2.1, e0 ++ vr.2 ++ r2.2)
  else
    (s, e0)

/-- The SECOND `verificar_callback` definition (src/bot.py:527-571), the
one actually registered by `main`.  It deletes the button message,
shows a "verifying" text, queries the gateway, and on a settled status
pops only `recurring_jobs[chat_id]` (the daily-sweep job) before
confirming.  It never touches `paid_flags` and never cancels a
`retry_{chat_id}` job. -/
def verificar_callback (q : CallbackIn) (statusHttp : Except String StatusHttp)
    (s : BotState) : BotState × List Eff :=
  let e0 := [Eff.answerCallback]
  if pyStartsWith q.data "verificar_" then
    let payment_id := pyReplace q.data "verificar_" ""
    let e1 := [Eff.deleteMsg q.from_user q.message_id]
    let r2 := delete_previous_and_send_text q.from_user
      "⏳ Verificando pagamento na rede..." s
    let vr := verificar_pagamento payment_id statusHttp
    if (vr.1).success && (vr.1).paid then
      let s2 := popRecurringJob q.from_user r2.1
      let r4 := delete_previous_and_send_text q.from_user
        "✅ *Pagamento confirmado!*\n\nObrigado! Sua próxima cobrança virá no mês seguinte." s2
      (r4.1, e0 ++ e1 ++ r2.2 ++ vr.2 ++ r4.2)
    else
      let r4 := delete_previous_and_send_text q.from_user
        "❌ *Pagamento não localizado.*\n\nSe isso for um erro, contate o suporte com seu comprovante.\nCaso não tenha efetuado o pagamento, realize-o e toque novamente em *Já paguei*." r2.1
      (r4.1, e0 ++ e1 ++ r2.2 ++ vr.2 ++ r4.2)
  else
    (s, e0)

/-- Attribute lookup for `get_cliente` on `ClienteManager`.  The class
(src/bot.py:104-140) defines only `__init__`, `load_data`, `save_data`,
`add_or_update`, `get` and `get_clientes_do_dia`; `get_cliente` is not
among them, so `clientes_manager.get_cliente` raises `AttributeError` in
`status` (line 490), `pagar` (line 511) and `_job_cobrar_2h` (line 580).
The missing attribute is embedded as `none`; a hypothetical resolution
would be a profile lookup, which is the element type recorded here. -/
def lookup_get_cliente : Option (List (UserId × Cliente) → UserId → Option Cliente) :=
  none

/-- The `AttributeError` raised by `clientes_manager.get_cliente`. -/
def attrErr : String :=
  "AttributeError: ClienteManager object has no attribute get_cliente"

/-- A calendar date as exposed by `datetime.now()`. -/
structure PyDate where
  year : Int
  month : Int
  day : Int
  deriving DecidableEq

/-- `status` (src/bot.py:488-505).  Its first action is the attribute
access `clientes_manager.get_cliente(...)`, which raises (see
`lookup_get_cliente`); the `some` branch transcribes the rest of the body
(next-date computation and report) and is unreachable.  Calendar validity
of the constructed `datetime` is not modelled. -/
def status_handler (uid : UserId) (today : PyDate) (s : BotState) :
    Except String (BotState × List Eff) :=
  match lookup_get_cliente with
  | none => .error attrErr
  | some f =>
      match f s.clientes uid with
      | none =>
          .ok (delete_previous_and_send_text uid
            "Você ainda não está configurado. Use /start." s)
      | some cliente =>
          match cliente.dia_pagamento with
          | none => .error "TypeError: unsupported comparison with NoneType"
          | some dia =>
              let prox_mes := today.month % 12 + 1
              let ano := today.year + (if prox_mes = 1 then 1 else 0)
              let mes := if today.day > dia then prox_mes else today.month
              let txt := "📊 *Seu cadastro*\n- Dia da cobrança: *" ++ toString dia
                ++ "*\n- Valor: *R$ " ++ formatar_valor_brl cliente.valor
                ++ "*\n- Próxima execução: *" ++ pad2 dia.toNat ++ "/"
                ++ pad2 mes.toNat ++ "/" ++ toString ano ++ "*\n"
              .ok (delete_previous_and_send_text uid txt s)

/-- `_job_cobrar_2h` (src/bot.py:576-603), the daily-sweep 2h job.  Like
`status` it begins with `clientes_manager.get_cliente(user_id)` and
therefore raises `AttributeError` on every tick; the `some` branch
transcribes the unreachable remainder (leave-and-disarm off the billing
day, otherwise re-issue without scheduling: the fifth positional argument
passed to `gerar_cobranca` is `cliente.get("cpf_cnpj")`, which is `None`
and hence falsy). -/
def job_cobrar_2h (user_id : UserId) (today_day : Int)
    (createHttp : Except String CreateHttp) (editOk : Bool) (s : BotState) :
    Except String (BotState × List Eff) :=
  match lookup_get_cliente with
  | none => .error attrErr
  | some f =>
      match f s.clientes user_id with
      | none => .ok (popRecurringJob user_id s, [])
      | some cliente =>
          match cliente.dia_pagamento with
          | none => .error "TypeError: int() argument is None"
          | some dia =>
              if today_day ≠ dia then
                .ok (popRecurringJob user_id s, [])
              else
                let r1 := delete_previous_and_send_text user_id
                  "⏳ Gerando cobrança..." s
                let g := gerar_cobranca user_id cliente.username
                  cliente.valor false createHttp editOk r1.1
                .ok (g.2.1, r1.2 ++ g.2.2)

/-- `ClienteManager.get_clientes_do_dia` (src/bot.py:136-140). -/
def get_clientes_do_dia (clientes : List (UserId × Cliente)) (dia : Int) :
    List (UserId × Cliente) :=
  clientes.filter (fun p => decide (p.2.dia_pagamento = some dia) && p.2.ativo)

/-- One iteration of the daily sweep loop (src/bot.py:614-627): skip a
subscriber already tracked in `recurring_jobs`, otherwise create one
repeating `cobranca_{uid}` job and track it. -/
def sweepStep (st : BotState) (p : UserId × Cliente) : BotState :=
  match afind st.recurring_jobs p.1 with
  | some _ => st
  | none =>
      let jid := st.next_job_id
      { st with
        jobs := st.jobs ++ [{ id := jid, name := "cobranca_" ++ toString p.1,
                              uid := p.1, kind := JobKind.cobranca }],
        next_job_id := jid + 1,
        recurring_jobs := ainsert st.recurring_jobs p.1 jid }

/-- `preparar_cobrancas_do_dia` (src/bot.py:606-627): the once-daily
sweep over every active subscriber whose billing day is today. -/
def preparar_cobrancas_do_dia (today_day : Int) (s : BotState) : BotState :=
  (get_clientes_do_dia s.clientes today_day).foldl sweepStep s

/-- The environment-derived configuration read at import time
(src/bot.py:55-65): `TELEGRAM_TOKEN` has no default; `WALLET_ADDRESS` and
`ATLAS_API_KEY` fall back to hardcoded literals. -/
structure EnvConfig where
  telegram_token : Option String
  atlas_api_key : String
  wallet_address : String
  atlas_tax_number_default : String
  deriving DecidableEq

/-- The hardcoded `ATLAS_API_KEY` fallback (src/bot.py:60). -/
def defaultAtlasKey : String :=
  "atlas_ceaf6237e499f94dfe87ef62b19e25b360293369cbacfdf99760ee255761b5f5"

/-- The hardcoded `WALLET_ADDRESS` fallback (src/bot.py:56-59). -/
def defaultWallet : String :=
  "lq1qqw3nx0darshqqzl8t95j0vj3xxuwmp4a4fyz799plu7m8d4ztr2jugftryer3khq0jmskgppe6ughwyevgwmuvq8de75sgyy2"

/-- Resolve configuration from an environment (`os.getenv`). -/
def resolveEnvConfig (env : String → Option String) : EnvConfig :=
  { telegram_token := env "TELEGRAM_TOKEN",
    atlas_api_key := (env "ATLAS_API_KEY").getD defaultAtlasKey,
    wallet_address := (env "WALLET_ADDRESS").getD defaultWallet,
    atlas_tax_number_default := pyStrip ((env "ATLAS_TAX_NUMBER_DEFAULT").getD "") }

/-- `main` up to entering the event loop (src/bot.py:632-654): a missing
or empty (falsy) `TELEGRAM_TOKEN` raises `ValueError` before the
Application is built; otherwise handlers and the daily job are registered
and `run_polling` is entered, modelled by returning the configuration. -/
def main_startup (env : String → Option String) : Except String EnvConfig :=
  let cfg := resolveEnvConfig env
  match cfg.telegram_token with
  | none => .error "❌ TELEGRAM_TOKEN não configurado!"
  | some t =>
      if t = "" then .error "❌ TELEGRAM_TOKEN não configurado!" else .ok cfg

/-- One scheduled tick of either recurring job kind, with its oracles.
`today_day` is `datetime.now().day` at tick time. -/
structure TickEv where
  kind : JobKind
  uid : UserId
  jobId : Nat
  statusHttp : Except String StatusHttp
  createHttp : Except String CreateHttp
  editOk : Bool
  today_day : Int

/-- Dispatch one tick.  A `cobranca` tick raises `AttributeError`
(`job_cobrar_2h`); python-telegram-bot catches and logs job-callback
exceptions, so the state is unchanged and no modelled effect occurs. -/
def runTick (ev : TickEv) (s : BotState) : BotState × List Eff :=
  match ev.kind with
  | JobKind.retry =>
      retry_cobranca_job ev.uid ev.jobId ev.statusHttp ev.createHttp ev.editOk s
  | JobKind.cobranca =>
      match job_cobrar_2h ev.uid ev.today_day ev.createHttp ev.editOk s with
      | .error _ => (s, [])
      | .ok r => r

/-- Run a sequence of ticks, concatenating the effect traces. -/
def runTicks : List TickEv → BotState → BotState × List Eff
  | [], s => (s, [])
  | ev :: r, s =>
      ((runTicks r (runTick ev s).1).1,
       (runTick ev s).2 ++ (runTicks r (runTick ev s).1).2)

/-- One message-presenting operation, covering both helper families of
the source: `send_or_replace_text`/`send_or_replace_photo` (tracking
`last_message_id`) and `_delete_previous_and_send_text`/`..._photo`
(tracking `last_msg_ids`). -/
inductive PresentOp where
  | replText (u : UserId) (text : String)
  | replPhoto (u : UserId) (caption : String) (editOk : Bool)
  | delsendText (u : UserId) (text : String)
  | delsendPhoto (u : UserId) (caption : String)

/-- Dispatch one presenting operation. -/
def runPresent (op : PresentOp) (s : BotState) : BotState × List Eff :=
  match op with
  | .replText u t => send_or_replace_text u t s
  | .replPhoto u c e => send_or_replace_photo u c e s
  | .delsendText u t => delete_previous_and_send_text u t s
  | .delsendPhoto u c => delete_previous_and_send_photo u c s

/-- Run a sequence of presenting operations. -/
def runPresents : List PresentOp → BotState → BotState × List Eff
  | [], s => (s, [])
  | op :: r, s =>
      ((runPresents r (runPresent op s).1).1,
       (runPresent op s).2 ++ (runPresents r (runPresent op s).1).2)

/-- Does the operation belong to the `send_or_replace` family and target `u`? -/
def targetsRepl (u : UserId) : PresentOp → Bool
  | .replText v _ => v == u
  | .replPhoto v _ _ => v == u
  | _ => false

/-- Does the operation belong to the `_delete_previous` family and target `u`? -/
def targetsDelsend (u : UserId) : PresentOp → Bool
  | .delsendText v _ => v == u
  | .delsendPhoto v _ => v == u
  | _ => false


/-! ### Association-list lemmas -/

lemma afind_ainsert_self {β : Type} (l : List (Int × β)) (k : Int) (v : β) :
    afind (ainsert l k v) k = some v := by
  simp [ainsert, afind]

lemma afind_filter_keep {β : Type} (l : List (Int × β)) {k u : Int} (h : u ≠ k) :
    afind (l.filter (fun p => !decide (p.1 = k))) u = afind l u := by
  have hku : ¬(k = u) := fun hh => h hh.symm
  induction l with
  | nil => rfl
  | cons a t ih =>
      rw [List.filter_cons]
      by_cases ha : a.1 = k
      · have hau : ¬(a.1 = u) := by rw [ha]; exact hku
        simp [ha, afind, hau, hku, ih]
      · by_cases hau : a.1 = u
        · simp [ha, afind, hau, h]
        · simp [ha, afind, hau, ih]

lemma afind_ainsert_ne {β : Type} (l : List (Int × β)) {k u : Int} (v : β) (h : u ≠ k) :
    afind (ainsert l k v) u = afind l u := by
  have hk : ¬(k = u) := fun hh => h hh.symm
  rw [ainsert, afind]
  simp only [hk, if_false]
  exact afind_filter_keep l h

lemma afind_aerase_self {β : Type} (l : List (Int × β)) (k : Int) :
    afind (aerase l k) k = none := by
  induction l with
  | nil => rfl
  | cons a t ih =>
      rw [aerase, List.filter_cons]
      by_cases ha : a.1 = k
      · have hd : (!decide (a.1 = k)) = false := by simp [ha]
        rw [hd, if_neg (by simp)]
        simpa [aerase] using ih
      · rw [aerase] at ih
        simp [ha, afind, ih]

lemma afind_aerase_ne {β : Type} (l : List (Int × β)) {k u : Int} (h : u ≠ k) :
    afind (aerase l k) u = afind l u := afind_filter_keep l h

lemma countKey_filter_out {β : Type} (l : List (Int × β)) (k : Int) :
    countKey (l.filter (fun p => !decide (p.1 = k))) k = 0 := by
  induction l with
  | nil => rfl
  | cons a t ih =>
      rw [List.filter_cons]
      by_cases ha : a.1 = k
      · simp [ha]
        exact ih
      · simp [countKey, List.filter_cons, ha, List.filter_filter]

lemma countKey_ainsert_self {β : Type} (l : List (Int × β)) (k : Int) (v : β) :
    countKey (ainsert l k v) k = 1 := by
  have h0 := countKey_filter_out l k
  rw [countKey] at h0
  rw [ainsert, countKey, List.filter_cons]
  simp [h0]

lemma countKey_filter_keep {β : Type} (l : List (Int × β)) {k u : Int} (h : u ≠ k) :
    countKey (l.filter (fun p => !decide (p.1 = k))) u = countKey l u := by
  have hku : ¬(k = u) := fun hh => h hh.symm
  induction l with
  | nil => rfl
  | cons a t ih =>
      rw [List.filter_cons]
      by_cases ha : a.1 = k
      · have hau : ¬(a.1 = u) := by rw [ha]; exact hku
        simpa [countKey, List.filter_cons, ha, hau, hku] using ih
      · by_cases hau : a.1 = u
        · simpa [countKey, List.filter_cons, ha, hau, h] using ih
        · simpa [countKey, List.filter_cons, ha, hau] using ih

lemma countKey_ainsert_ne {β : Type} (l : List (Int × β)) {k u : Int} (v : β) (h : u ≠ k) :
    countKey (ainsert l k v) u = countKey l u := by
  have hk : ¬(k = u) := fun hh => h hh.symm
  rw [ainsert, countKey, List.filter_cons]
  simp only [decide_eq_true_eq, hk, if_false]
  exact countKey_filter_keep l h

lemma countKey_pos_of_afind {β : Type} (l : List (Int × β)) (k : Int) (v : β)
    (h : afind l k = some v) : 1 ≤ countKey l k := by
  induction l with
  | nil => simp [afind] at h
  | cons a t ih =>
      by_cases ha : a.1 = k
      · simp [countKey, List.filter_cons, ha]
      · rw [afind] at h
        simp only [ha, if_false] at h
        simpa [countKey, List.filter_cons, ha] using ih h

/-! ### Frame and trace lemmas for the channel operations -/

lemma send_or_replace_text_fst (u : UserId) (t : String) (s : BotState) :
    (send_or_replace_text u t s).1 =
      { s with last_message_id := ainsert s.last_message_id u s.next_msg_id,
               next_msg_id := s.next_msg_id + 1 } := rfl

lemma delete_previous_and_send_text_fst (u : UserId) (t : String) (s : BotState) :
    (delete_previous_and_send_text u t s).1 =
      { s with last_msg_ids := ainsert s.last_msg_ids u s.next_msg_id,
               next_msg_id := s.next_msg_id + 1 } := rfl

lemma delete_previous_and_send_photo_fst (u : UserId) (c : String) (s : BotState) :
    (delete_previous_and_send_photo u c s).1 =
      { s with last_msg_ids := ainsert s.last_msg_ids u s.next_msg_id,
               next_msg_id := s.next_msg_id + 1 } := rfl

lemma send_or_replace_photo_frame (u : UserId) (c : String) (e : Bool) (s : BotState) :
    ((send_or_replace_photo u c e s).1).user_states = s.user_states ∧
    ((send_or_replace_photo u c e s).1).last_payment_id = s.last_payment_id ∧
    ((send_or_replace_photo u c e s).1).paid_flags = s.paid_flags ∧
    ((send_or_replace_photo u c e s).1).last_msg_ids = s.last_msg_ids ∧
    ((send_or_replace_photo u c e s).1).recurring_jobs = s.recurring_jobs ∧
    ((send_or_replace_photo u c e s).1).clientes = s.clientes ∧
    ((send_or_replace_photo u c e s).1).user_data_dia = s.user_data_dia ∧
    ((send_or_replace_photo u c e s).1).jobs = s.jobs := by
  unfold send_or_replace_photo
  cases afind s.last_message_id u with
  | none => simp
  | some mid =>
      by_cases h0 : mid = 0
      · simp [h0]
      · by_cases he : e <;> simp [h0, he]

lemma sendText_mem_sort (u : UserId) (t : String) (s : BotState) :
    Eff.sendText u t ∈ (send_or_replace_text u t s).2 := by
  unfold send_or_replace_text
  cases afind s.last_message_id u <;> simp

lemma sendText_mem_dpst (u : UserId) (t : String) (s : BotState) :
    Eff.sendText u t ∈ (delete_previous_and_send_text u t s).2 := by
  unfold delete_previous_and_send_text
  cases afind s.last_msg_ids u <;> simp

lemma noCreate_sort (v : UserId) (t : String) (s : BotState) (u : UserId) (a : PyFloat) :
    Eff.gatewayCreate u a ∉ (send_or_replace_text v t s).2 := by
  unfold send_or_replace_text
  cases afind s.last_message_id v with
  | none => simp
  | some mid => by_cases h0 : mid = 0 <;> simp [h0]

lemma noCreate_dpst (v : UserId) (t : String) (s : BotState) (u : UserId) (a : PyFloat) :
    Eff.gatewayCreate u a ∉ (delete_previous_and_send_text v t s).2 := by
  unfold delete_previous_and_send_text
  cases afind s.last_msg_ids v with
  | none => simp
  | some mid => by_cases h0 : mid = 0 <;> simp [h0]

lemma noCreate_photo (v : UserId) (c : String) (e : Bool) (s : BotState)
    (u : UserId) (a : PyFloat) :
    Eff.gatewayCreate u a ∉ (send_or_replace_photo v c e s).2 := by
  unfold send_or_replace_photo
  cases afind s.last_message_id v with
  | none => simp
  | some mid =>
      by_cases h0 : mid = 0
      · simp [h0]
      · by_cases he : e <;> simp [h0, he]

lemma noCreate_verif (pid : String) (h : Except String StatusHttp)
    (u : UserId) (a : PyFloat) :
    Eff.gatewayCreate u a ∉ (verificar_pagamento pid h).2 := by
  unfold verificar_pagamento
  cases h with
  | error e => simp
  | ok r => by_cases hr : r.ok <;> simp [hr]

/-! ### Frame and trace lemmas for `gerar_cobranca` -/

lemma gerar_paid_frame (v : UserId) (un : String) (vl : PyFloat) (b : Bool)
    (out : Except String CreateHttp) (eo : Bool) (s : BotState) {u : UserId}
    (h : u ≠ v) :
    afind ((gerar_cobranca v un vl b out eo s).2.1).paid_flags u =
      afind s.paid_flags u := by
  unfold gerar_cobranca
  cases out with
  | error e => simp [send_or_replace_text_fst]
  | ok r =>
      by_cases hok : !r.ok
      · simp [hok, send_or_replace_text_fst]
      · by_cases hfields : !(truthy r.qrCodeImage && truthy r.qrCode && truthy r.id)
        · simp [hok, hfields, send_or_replace_text_fst]
        · have hframe := send_or_replace_photo_frame v " " eo s
          by_cases hb : b <;>
            simp [hok, hfields, hb, scheduleRetryJob, afind_ainsert_ne _ _ h,
              hframe.2.2.1]

lemma gerar_no_foreign_create (v : UserId) (un : String) (vl : PyFloat) (b : Bool)
    (out : Except String CreateHttp) (eo : Bool) (s : BotState) {u : UserId}
    (h : u ≠ v) (a : PyFloat) :
    Eff.gatewayCreate u a ∉ (gerar_cobranca v un vl b out eo s).2.2 := by
  unfold gerar_cobranca
  cases out with
  | error e =>
      simp [h]
      exact fun hf => absurd hf (noCreate_sort v _ s u a)
  | ok r =>
      by_cases hok : !r.ok
      · simp [hok, h]
        exact fun hf => absurd hf (noCreate_sort v _ s u a)
      · by_cases hfields : !(truthy r.qrCodeImage && truthy r.qrCode && truthy r.id)
        · simp [hok, hfields, h]
          exact fun hf => absurd hf (noCreate_sort v _ s u a)
        · by_cases hb : b <;> simp [hok, hfields, hb, h] <;>
            exact fun hf => absurd hf (noCreate_photo v " " eo s u a)

/-! ### C6 -/

/-- C6: if the create-charge call returns a non-success HTTP outcome, or a
success response missing any of charge id (`id`), payment code (`qrCode`)
or payment image (`qrCodeImage`), then `gerar_cobranca` returns no charge
and the subscriber's active charge reference (`last_payment_id`), the
`paid_flags` dict and the job queue are left unchanged. -/
theorem C6_failure_frame (s : BotState) (uid : UserId) (un : String) (vl : PyFloat)
    (b eo : Bool) (r : CreateHttp)
    (h : r.ok = false ∨ truthy r.id = false ∨ truthy r.qrCode = false ∨
      truthy r.qrCodeImage = false) :
    (gerar_cobranca uid un vl b (Except.ok r) eo s).1 = none ∧
    ((gerar_cobranca uid un vl b (Except.ok r) eo s).2.1).last_payment_id
      = s.last_payment_id ∧
    ((gerar_cobranca uid un vl b (Except.ok r) eo s).2.1).paid_flags = s.paid_flags ∧
    ((gerar_cobranca uid un vl b (Except.ok r) eo s).2.1).jobs = s.jobs := by
  cases hro : r.ok with
  | false => simp [gerar_cobranca, hro, send_or_replace_text_fst]
  | true =>
      have hf : (truthy r.qrCodeImage && truthy r.qrCode && truthy r.id) = false := by
        rcases h with h | h | h | h
        · rw [hro] at h; cases h
        all_goals simp [h]
      simp [gerar_cobranca, hro, hf, send_or_replace_text_fst]

/-- C6 witness: a concrete HTTP-500 outcome at the empty state. -/
theorem C6_failure_frame_witness :
    (gerar_cobranca 1 "u" (PyFloat.finite (pqOfInt 100)) false
        (Except.ok { ok := false, status_code := 500, text := "boom",
                     id := none, qrCode := none, qrCodeImage := none })
        true BotState.empty).1 = none ∧
    ((gerar_cobranca 1 "u" (PyFloat.finite (pqOfInt 100)) false
        (Except.ok { ok := false, status_code := 500, text := "boom",
                     id := none, qrCode := none, qrCodeImage := none })
        true BotState.empty).2.1).last_payment_id = BotState.empty.last_payment_id ∧
    ((gerar_cobranca 1 "u" (PyFloat.finite (pqOfInt 100)) false
        (Except.ok { ok := false, status_code := 500, text := "boom",
                     id := none, qrCode := none, qrCodeImage := none })
        true BotState.empty).2.1).paid_flags = BotState.empty.paid_flags ∧
    ((gerar_cobranca 1 "u" (PyFloat.finite (pqOfInt 100)) false
        (Except.ok { ok := false, status_code := 500, text := "boom",
                     id := none, qrCode := none, qrCodeImage := none })
        true BotState.empty).2.1).jobs = BotState.empty.jobs :=
  C6_failure_frame BotState.empty 1 "u" (PyFloat.finite (pqOfInt 100)) false true _ (Or.inl rfl)

/-! ### C5 -/

/-- C5 counterexample: with a concrete HTTP-500 response whose body is
"Internal Server Error", the message sent to the user embeds the status
code and the raw body verbatim, so technical detail is NOT confined to the
operator log. -/
theorem C5_counterexample :
    Eff.sendText 1 ("❌ Erro ao gerar cobrança.\n\nCódigo: " ++ toString (500 : Nat)
        ++ "\n" ++ "Internal Server Error")
      ∈ (gerar_cobranca 1 "u" (PyFloat.finite (pqOfInt 100)) false
          (Except.ok { ok := false, status_code := 500, text := "Internal Server Error",
                       id := none, qrCode := none, qrCodeImage := none }) true
          BotState.empty).2.2 := by
  simp [gerar_cobranca, send_or_replace_text, BotState.empty, afind]

/-- C5 (amended): on a non-success create-charge HTTP outcome the failure
text sent to the user itself embeds the HTTP status code and the raw
response body; the same technical detail is also recorded in the
operator-facing log. -/
theorem C5_amended_error_reporting (s : BotState) (uid : UserId) (un : String)
    (vl : PyFloat) (b eo : Bool) (r : CreateHttp) (h : r.ok = false) :
    Eff.logCreateResp r.status_code (pyTake r.text 500)
        ∈ (gerar_cobranca uid un vl b (Except.ok r) eo s).2.2 ∧
    Eff.sendText uid ("❌ Erro ao gerar cobrança.\n\nCódigo: "
        ++ toString r.status_code ++ "\n" ++ r.text)
        ∈ (gerar_cobranca uid un vl b (Except.ok r) eo s).2.2 := by
  have hm := sendText_mem_sort uid ("❌ Erro ao gerar cobrança.\n\nCódigo: "
    ++ toString r.status_code ++ "\n" ++ r.text) s
  constructor
  · simp [gerar_cobranca, h]
  · simp [gerar_cobranca, h, List.mem_append]
    exact hm

/-- C5 witness for the amended statement, at a concrete input. -/
theorem C5_amended_error_reporting_witness :
    Eff.logCreateResp 500 (pyTake "Internal Server Error" 500)
        ∈ (gerar_cobranca 1 "u" (PyFloat.finite (pqOfInt 100)) false
            (Except.ok { ok := false, status_code := 500,
                         text := "Internal Server Error",
                         id := none, qrCode := none, qrCodeImage := none }) true
            BotState.empty).2.2 ∧
    Eff.sendText 1 ("❌ Erro ao gerar cobrança.\n\nCódigo: "
        ++ toString (500 : Nat) ++ "\n" ++ "Internal Server Error")
        ∈ (gerar_cobranca 1 "u" (PyFloat.finite (pqOfInt 100)) false
            (Except.ok { ok := false, status_code := 500,
                         text := "Internal Server Error",
                         id := none, qrCode := none, qrCodeImage := none }) true
            BotState.empty).2.2 :=
  C5_amended_error_reporting BotState.empty 1 "u" (PyFloat.finite (pqOfInt 100)) false true _ rfl

/-! ### C7 -/

/-- C7 (code bug): for every state in which the subscriber has a stored
profile, the `/status` handler raises `AttributeError` before producing
any report — `ClienteManager` defines `get`, not the `get_cliente` the
handler calls — so the profile and next billing date are never shown. -/
theorem C7_status_attribute_error (uid : UserId) (today : PyDate) (s : BotState)
    (c : Cliente) (_h : afind s.clientes uid = some c) :
    status_handler uid today s = Except.error attrErr := rfl

/-- A concrete stored profile used by the C7 witness. -/
def c7cliente : Cliente :=
  { username := "u", dia_pagamento := some 15,
    valor := PyFloat.finite (pqOfInt 100), ativo := true }

/-- A concrete state with that profile stored for user 1. -/
def c7state : BotState :=
  { BotState.empty with clientes := [(1, c7cliente)] }

/-- C7 witness: a subscriber with a stored profile invoking `/status`. -/
theorem C7_status_attribute_error_witness :
    afind c7state.clientes 1 = some c7cliente ∧
    status_handler 1 { year := 2026, month := 10, day := 12 } c7state
      = Except.error attrErr :=
  ⟨rfl, C7_status_attribute_error 1 { year := 2026, month := 10, day := 12 }
    c7state c7cliente rfl⟩

/-! ### C8 -/

/-- C8 counterexample: with the chat credential set but `ATLAS_API_KEY`
absent from the environment, startup succeeds anyway, silently falling
back to the hardcoded gateway key — the gateway API key's presence is
never validated, refuting "presence of both ... is validated". -/
theorem C8_counterexample :
    main_startup (fun k => if k = "TELEGRAM_TOKEN" then some "token" else none)
      = Except.ok { telegram_token := some "token",
                    atlas_api_key := defaultAtlasKey,
                    wallet_address := defaultWallet,
                    atlas_tax_number_default := "" } := rfl

/-- C8 (amended): only the chat-channel credential is validated at
startup — the process fails before the event loop exactly when
`TELEGRAM_TOKEN` is absent or empty (falsy); the gateway API key falls
back to a hardcoded default and its presence is never checked, so startup
succeeds for every environment providing a nonempty chat credential. -/
theorem C8_amended_startup_validation (env : String → Option String) :
    ((∃ e, main_startup env = Except.error e) ↔
      (env "TELEGRAM_TOKEN" = none ∨ env "TELEGRAM_TOKEN" = some "")) ∧
    ((∃ cfg, main_startup env = Except.ok cfg) ↔
      ¬(env "TELEGRAM_TOKEN" = none ∨ env "TELEGRAM_TOKEN" = some "")) := by
  have hm : main_startup env =
      (match env "TELEGRAM_TOKEN" with
        | none => Except.error "❌ TELEGRAM_TOKEN não configurado!"
        | some t =>
            if t = "" then Except.error "❌ TELEGRAM_TOKEN não configurado!"
            else Except.ok (resolveEnvConfig env)) := rfl
  rw [hm]
  cases h : env "TELEGRAM_TOKEN" with
  | none => simp
  | some t =>
      by_cases ht : t = ""
      · subst ht; simp
      · simp [ht]

/-! ### C10 -/

/-- A conversation sitting in the AWAIT_AMOUNT state for user 1 with
billing day 10 already collected. -/
def convAmountState : BotState :=
  { BotState.empty with user_states := [(1, some "amount")],
                        user_data_dia := [(1, 10)] }

/-- C10: in AWAIT_AMOUNT every comma is replaced by a dot before parsing:
"100,50" is accepted and stored as the decimal 100.50 (= 201/2) and the
conversation finishes (state set to Python `None`), while "1,000.50"
becomes "1.000.50", fails to parse, and is rejected as non-numeric with
no profile or state mutation. -/
theorem C10_comma_decimal :
    (afind (((handle_text 1 "U" "100,50" 5 (Except.error "unused") true
        convAmountState).1).clientes) 1
      = some { username := "U", dia_pagamento := some 10,
               valor := PyFloat.finite (pqAdd (pqOfInt 100) (pqDiv (pqOfInt 50) (pqOfInt 100))), ativo := true }) ∧
    (afind (((handle_text 1 "U" "100,50" 5 (Except.error "unused") true
        convAmountState).1).user_states) 1 = some none) ∧
    ((handle_text 1 "U" "1,000.50" 5 (Except.error "unused") true
        convAmountState).1).clientes = convAmountState.clientes ∧
    ((handle_text 1 "U" "1,000.50" 5 (Except.error "unused") true
        convAmountState).1).user_states = convAmountState.user_states ∧
    Eff.sendText 1 "Digite apenas números."
      ∈ (handle_text 1 "U" "1,000.50" 5 (Except.error "unused") true
          convAmountState).2 := by
  refine ⟨?_, ?_, ?_, ?_, ?_⟩ <;> decide

/-! ### C9 -/

/-- The AWAIT_DAY inputs the claim quantifies over: non-numeric, or an
integer outside [1,31]. -/
def diaRejected (text : String) : Bool :=
  match pyParseInt text with
  | none => true
  | some d => decide (d < 1 ∨ 31 < d)

/-- The AWAIT_AMOUNT inputs the claim quantifies over: non-numeric (after
comma-to-dot replacement), or a value outside (0, 3000]. -/
def valorRejected (text : String) : Bool :=
  match pyParseFloat (pyReplace text "," ".") with
  | none => true
  | some v => !(pyLt (PyFloat.finite (pqOfInt 0)) v
      && pyLe v (PyFloat.finite (pqOfInt 3000)))

/-- C9: a rejected input in state AWAIT_DAY ("day") re-prompts and leaves
the conversation state, the profile store and the collected day
unchanged; likewise for a rejected input in state AWAIT_AMOUNT
("amount"). -/
theorem C9_rejected_input_no_transition (uid : UserId) (un : String) (text : String)
    (today : Int) (ch : Except String CreateHttp) (eo : Bool) (s : BotState) :
    ((afind s.user_states uid).join = some "day" → diaRejected text = true →
      (((handle_text uid un text today ch eo s).1).user_states = s.user_states ∧
       ((handle_text uid un text today ch eo s).1).clientes = s.clientes ∧
       ((handle_text uid un text today ch eo s).1).user_data_dia = s.user_data_dia ∧
       (Eff.sendText uid "Digite apenas números."
          ∈ (handle_text uid un text today ch eo s).2 ∨
        Eff.sendText uid "Digite um dia entre 1 e 31."
          ∈ (handle_text uid un text today ch eo s).2))) ∧
    ((afind s.user_states uid).join = some "amount" → valorRejected text = true →
      (((handle_text uid un text today ch eo s).1).user_states = s.user_states ∧
       ((handle_text uid un text today ch eo s).1).clientes = s.clientes ∧
       ((handle_text uid un text today ch eo s).1).user_data_dia = s.user_data_dia ∧
       (Eff.sendText uid "Digite apenas números."
          ∈ (handle_text uid un text today ch eo s).2 ∨
        Eff.sendText uid "Valor inválido."
          ∈ (handle_text uid un text today ch eo s).2))) := by
  constructor
  · intro hst hrej
    have hst2 : ((afind s.user_states uid).bind fun a => a) = some "day" := by
      simpa [Option.join] using hst
    have hht : handle_text uid un text today ch eo s = receber_dia uid text s := by
      simp [handle_text, hst2]
    rw [hht]
    cases hp : pyParseInt text with
    | none =>
        simp only [receber_dia, hp]
        refine ⟨by rw [send_or_replace_text_fst], by rw [send_or_replace_text_fst],
          by rw [send_or_replace_text_fst], Or.inl (sendText_mem_sort uid _ s)⟩
    | some d =>
        simp only [diaRejected, hp, decide_eq_true_eq] at hrej
        have hrange : ¬(1 ≤ d ∧ d ≤ 31) := by omega
        simp only [receber_dia, hp, hrange, if_false]
        refine ⟨by rw [send_or_replace_text_fst], by rw [send_or_replace_text_fst],
          by rw [send_or_replace_text_fst], Or.inr (sendText_mem_sort uid _ s)⟩
  · intro hst hrej
    have hst2 : ((afind s.user_states uid).bind fun a => a) = some "amount" := by
      simpa [Option.join] using hst
    have hda : (some ("amount" : String) = some "day") = False := by simp
    have hht : handle_text uid un text today ch eo s
        = receber_valor uid un text today ch eo s := by
      simp [handle_text, hst2, hda]
    rw [hht]
    cases hp : pyParseFloat (pyReplace text "," ".") with
    | none =>
        simp only [receber_valor, hp]
        refine ⟨by rw [send_or_replace_text_fst], by rw [send_or_replace_text_fst],
          by rw [send_or_replace_text_fst], Or.inl (sendText_mem_sort uid _ s)⟩
    | some v =>
        simp only [valorRejected, hp, Bool.not_eq_eq_eq_not, Bool.not_true] at hrej
        simp only [receber_valor, hp, hrej, Bool.false_eq_true, if_false]
        refine ⟨by rw [send_or_replace_text_fst], by rw [send_or_replace_text_fst],
          by rw [send_or_replace_text_fst], Or.inr (sendText_mem_sort uid _ s)⟩

/-- A conversation sitting in the AWAIT_DAY state for user 1. -/
def convDayState : BotState :=
  { BotState.empty with user_states := [(1, some "day")] }

/-- C9 witness: "abc" rejected in AWAIT_DAY, "40" rejected in AWAIT_DAY,
"5000" rejected in AWAIT_AMOUNT — each leaving the state unchanged. -/
theorem C9_rejected_input_no_transition_witness :
    (((handle_text 1 "U" "abc" 5 (Except.error "unused") true convDayState).1).user_states
        = convDayState.user_states ∧
      ((handle_text 1 "U" "abc" 5 (Except.error "unused") true convDayState).1).clientes
        = convDayState.clientes ∧
      ((handle_text 1 "U" "abc" 5 (Except.error "unused") true convDayState).1).user_data_dia
        = convDayState.user_data_dia ∧
      (Eff.sendText 1 "Digite apenas números."
          ∈ (handle_text 1 "U" "abc" 5 (Except.error "unused") true convDayState).2 ∨
       Eff.sendText 1 "Digite um dia entre 1 e 31."
          ∈ (handle_text 1 "U" "abc" 5 (Except.error "unused") true convDayState).2)) ∧
    (((handle_text 1 "U" "5000" 5 (Except.error "unused") true convAmountState).1).user_states
        = convAmountState.user_states ∧
      ((handle_text 1 "U" "5000" 5 (Except.error "unused") true convAmountState).1).clientes
        = convAmountState.clientes ∧
      ((handle_text 1 "U" "5000" 5 (Except.error "unused") true convAmountState).1).user_data_dia
        = convAmountState.user_data_dia ∧
      (Eff.sendText 1 "Digite apenas números."
          ∈ (handle_text 1 "U" "5000" 5 (Except.error "unused") true convAmountState).2 ∨
       Eff.sendText 1 "Valor inválido."
          ∈ (handle_text 1 "U" "5000" 5 (Except.error "unused") true convAmountState).2)) :=
  ⟨(C9_rejected_input_no_transition 1 "U" "abc" 5 (Except.error "unused") true
      convDayState).1 (by decide) (by decide),
   (C9_rejected_input_no_transition 1 "U" "5000" 5 (Except.error "unused") true
      convAmountState).2 (by decide) (by decide)⟩

/-! ### C4 -/

lemma runPresent_countA (op : PresentOp) (s : BotState) (u : UserId)
    (h : countKey s.last_message_id u ≤ 1) :
    countKey ((runPresent op s).1).last_message_id u =
      (if targetsRepl u op then 1 else countKey s.last_message_id u) := by
  cases op with
  | replText v t =>
      by_cases hv : v = u
      · subst hv
        simp [runPresent, targetsRepl, send_or_replace_text_fst, countKey_ainsert_self]
      · have huv : u ≠ v := fun hh => hv hh.symm
        simp [runPresent, targetsRepl, send_or_replace_text_fst, hv,
          countKey_ainsert_ne _ _ huv]
  | replPhoto v c e =>
      by_cases hv : v = u
      · subst hv
        unfold runPresent send_or_replace_photo
        cases hm : afind s.last_message_id v with
        | none => simp [hm, targetsRepl, countKey_ainsert_self]
        | some mid =>
            by_cases h0 : mid = 0
            · simp [hm, h0, targetsRepl, countKey_ainsert_self]
            · by_cases he : e
              · have h1 : 1 ≤ countKey s.last_message_id v :=
                  countKey_pos_of_afind _ _ _ hm
                simp [hm, h0, he, targetsRepl]
                omega
              · simp [hm, h0, he, targetsRepl, countKey_ainsert_self]
      · have huv : u ≠ v := fun hh => hv hh.symm
        unfold runPresent send_or_replace_photo
        cases hm : afind s.last_message_id v with
        | none => simp [hm, targetsRepl, hv, countKey_ainsert_ne _ _ huv]
        | some mid =>
            by_cases h0 : mid = 0
            · simp [hm, h0, targetsRepl, hv, countKey_ainsert_ne _ _ huv]
            · by_cases he : e
              · simp [hm, h0, he, targetsRepl, hv]
              · simp [hm, h0, he, targetsRepl, hv, countKey_ainsert_ne _ _ huv]
  | delsendText v t =>
      simp [runPresent, targetsRepl, delete_previous_and_send_text_fst]
  | delsendPhoto v c =>
      simp [runPresent, targetsRepl, delete_previous_and_send_photo_fst]

lemma runPresent_countB (op : PresentOp) (s : BotState) (u : UserId)
    (h : countKey s.last_msg_ids u ≤ 1) :
    countKey ((runPresent op s).1).last_msg_ids u =
      (if targetsDelsend u op then 1 else countKey s.last_msg_ids u) := by
  cases op with
  | delsendText v t =>
      by_cases hv : v = u
      · subst hv
        simp [runPresent, targetsDelsend, delete_previous_and_send_text_fst,
          countKey_ainsert_self]
      · have huv : u ≠ v := fun hh => hv hh.symm
        simp [runPresent, targetsDelsend, delete_previous_and_send_text_fst, hv,
          countKey_ainsert_ne _ _ huv]
  | delsendPhoto v c =>
      by_cases hv : v = u
      · subst hv
        simp [runPresent, targetsDelsend, delete_previous_and_send_photo_fst,
          countKey_ainsert_self]
      · have huv : u ≠ v := fun hh => hv hh.symm
        simp [runPresent, targetsDelsend, delete_previous_and_send_photo_fst, hv,
          countKey_ainsert_ne _ _ huv]
  | replText v t =>
      simp [runPresent, targetsDelsend, send_or_replace_text_fst]
  | replPhoto v c e =>
      have hfr := (send_or_replace_photo_frame v c e s).2.2.2.1
      simp [runPresent, targetsDelsend, hfr]

lemma runPresents_countA (ops : List PresentOp) (s : BotState) (u : UserId)
    (h : countKey s.last_message_id u ≤ 1) :
    countKey ((runPresents ops s).1).last_message_id u =
      (if ops.any (targetsRepl u) then 1 else countKey s.last_message_id u) := by
  induction ops generalizing s with
  | nil => simp [runPresents]
  | cons op r ih =>
      have hstep := runPresent_countA op s u h
      have hle : countKey ((runPresent op s).1).last_message_id u ≤ 1 := by
        rw [hstep]; split_ifs
        · omega
        · exact h
      have hrest := ih ((runPresent op s).1) hle
      simp only [runPresents]
      rw [hrest, hstep]
      by_cases h1 : targetsRepl u op <;> by_cases h2 : r.any (targetsRepl u) <;>
        simp [h1, h2, List.any_cons]

lemma runPresents_countB (ops : List PresentOp) (s : BotState) (u : UserId)
    (h : countKey s.last_msg_ids u ≤ 1) :
    countKey ((runPresents ops s).1).last_msg_ids u =
      (if ops.any (targetsDelsend u) then 1 else countKey s.last_msg_ids u) := by
  induction ops generalizing s with
  | nil => simp [runPresents]
  | cons op r ih =>
      have hstep := runPresent_countB op s u h
      have hle : countKey ((runPresent op s).1).last_msg_ids u ≤ 1 := by
        rw [hstep]; split_ifs
        · omega
        · exact h
      have hrest := ih ((runPresent op s).1) hle
      simp only [runPresents]
      rw [hrest, hstep]
      by_cases h1 : targetsDelsend u op <;> by_cases h2 : r.any (targetsDelsend u) <;>
        simp [h1, h2, List.any_cons]

/-- C4 (amended): the source keeps TWO independent "last message" trackers
(`last_message_id` for the `send_or_replace` family, `last_msg_ids` for
the `_delete_previous_and_send` family).  Within each family the claimed
protocol holds: a send first attempts to delete that family's tracked
message (failure being swallowed), and after any sequence of presenting
operations each family tracks exactly one message id for a subscriber it
has served (and never more than one).  Across families, however, two
message ids can be tracked at once for the same subscriber (see the
counterexample). -/
theorem C4_amended_two_trackers :
    (∀ (s : BotState) (u : UserId) (t : String) (mid : Nat),
        afind s.last_message_id u = some mid → mid ≠ 0 →
        (send_or_replace_text u t s).2 = [Eff.deleteMsg u mid, Eff.sendText u t]) ∧
    (∀ (s : BotState) (u : UserId) (t : String) (mid : Nat),
        afind s.last_msg_ids u = some mid → mid ≠ 0 →
        (delete_previous_and_send_text u t s).2
          = [Eff.deleteMsg u mid, Eff.sendText u t]) ∧
    (∀ (ops : List PresentOp) (s : BotState) (u : UserId),
        countKey s.last_message_id u ≤ 1 →
        countKey ((runPresents ops s).1).last_message_id u =
          (if ops.any (targetsRepl u) then 1 else countKey s.last_message_id u)) ∧
    (∀ (ops : List PresentOp) (s : BotState) (u : UserId),
        countKey s.last_msg_ids u ≤ 1 →
        countKey ((runPresents ops s).1).last_msg_ids u =
          (if ops.any (targetsDelsend u) then 1 else countKey s.last_msg_ids u)) := by
  refine ⟨?_, ?_, runPresents_countA, runPresents_countB⟩
  · intro s u t mid hm h0
    simp [send_or_replace_text, hm, h0]
  · intro s u t mid hm h0
    simp [delete_previous_and_send_text, hm, h0]

/-- A state with one message tracked for user 1 in each family. -/
def c4trackState : BotState :=
  { BotState.empty with last_message_id := [(1, 5)], last_msg_ids := [(1, 7)] }

/-- C4 witness: concrete delete-then-send traces and tracker counts. -/
theorem C4_amended_two_trackers_witness :
    ((send_or_replace_text 1 "x" c4trackState).2
        = [Eff.deleteMsg 1 5, Eff.sendText 1 "x"]) ∧
    ((delete_previous_and_send_text 1 "y" c4trackState).2
        = [Eff.deleteMsg 1 7, Eff.sendText 1 "y"]) ∧
    (countKey ((runPresents [PresentOp.replText 1 "a"]
        BotState.empty).1).last_message_id 1 = 1) ∧
    (countKey ((runPresents [PresentOp.delsendText 1 "b"]
        BotState.empty).1).last_msg_ids 1 = 1) :=
  ⟨C4_amended_two_trackers.1 c4trackState 1 "x" 5 rfl (by decide),
   C4_amended_two_trackers.2.1 c4trackState 1 "y" 7 rfl (by decide),
   by
    have hh := C4_amended_two_trackers.2.2.1 [PresentOp.replText 1 "a"]
      BotState.empty 1 (by decide)
    simpa [targetsRepl] using hh,
   by
    have hh := C4_amended_two_trackers.2.2.2 [PresentOp.delsendText 1 "b"]
      BotState.empty 1 (by decide)
    simpa [targetsDelsend] using hh⟩

/-- One send of each family for the same subscriber. -/
def mixedOps : List PresentOp :=
  [PresentOp.replText 1 "a", PresentOp.delsendText 1 "b"]

/-- C4 counterexample: after a `send_or_replace_text` followed by a
`_delete_previous_and_send_text` for the same subscriber, TWO message ids
are tracked (one per dict), and the second send attempted no deletion of
the first message — refuting "exactly one message id is tracked" and
"each new send first attempts to remove the previously tracked message". -/
theorem C4_counterexample :
    ((runPresents mixedOps BotState.empty).1).last_message_id = [(1, 1)] ∧
    ((runPresents mixedOps BotState.empty).1).last_msg_ids = [(1, 2)] ∧
    (runPresent (PresentOp.delsendText 1 "b")
        ((runPresent (PresentOp.replText 1 "a") BotState.empty).1)).2
      = [Eff.sendText 1 "b"] := by
  refine ⟨?_, ?_, ?_⟩ <;> decide

/-! ### C2 -/

/-- Jobs of the daily-sweep kind belonging to subscriber `u`. -/
def cobrancaJobsFor (l : List Job) (u : UserId) : List Job :=
  l.filter (fun j => decide (j.uid = u) && decide (j.kind = JobKind.cobranca))

lemma filter_not_filter {α : Type} (l : List α) (p : α → Bool) :
    (l.filter (fun a => !(p a))).filter p = [] := by
  induction l with
  | nil => rfl
  | cons a t ih =>
      by_cases ha : p a = true <;> simp [List.filter_cons, ha, ih]

lemma scheduleRetryJob_retry_count (st : BotState) (uid : UserId) :
    ((scheduleRetryJob uid st).jobs.filter
        (fun j => j.name == "retry_" ++ toString uid)).length = 1 := by
  unfold scheduleRetryJob
  simp only [List.filter_append]
  rw [filter_not_filter]
  simp

lemma sweepStep_keeps_tracked (st : BotState) (p : UserId × Cliente) (u : UserId)
    (h : afind st.recurring_jobs u ≠ none) :
    afind (sweepStep st p).recurring_jobs u ≠ none ∧
    cobrancaJobsFor (sweepStep st p).jobs u = cobrancaJobsFor st.jobs u := by
  unfold sweepStep
  cases hr : afind st.recurring_jobs p.1 with
  | some j => exact ⟨h, rfl⟩
  | none =>
      have hpu : p.1 ≠ u := by
        intro hh
        rw [hh] at hr
        exact h hr
      have hup : u ≠ p.1 := fun hh => hpu hh.symm
      constructor
      · simp only [afind_ainsert_ne _ _ hup]
        exact h
      · simp [cobrancaJobsFor, List.filter_append, hpu]

lemma sweep_fold_keeps_tracked (cl : List (UserId × Cliente)) (st : BotState)
    (u : UserId) (h : afind st.recurring_jobs u ≠ none) :
    afind (cl.foldl sweepStep st).recurring_jobs u ≠ none ∧
    cobrancaJobsFor (cl.foldl sweepStep st).jobs u = cobrancaJobsFor st.jobs u := by
  induction cl generalizing st with
  | nil => exact ⟨h, rfl⟩
  | cons p r ih =>
      have hstep := sweepStep_keeps_tracked st p u h
      have hrest := ih (sweepStep st p) hstep.1
      exact ⟨hrest.1, by simp only [List.foldl_cons]; rw [hrest.2, hstep.2]⟩

/-- C2 (amended): each arming path is individually idempotent for its own
timer: a successful issuance-time arming (`gerar_cobranca` with
`schedule_retries`) leaves exactly one `retry_{uid}` job in the queue,
cancelling any prior ones; and the daily sweep never adds a `cobranca_`
job for a subscriber already tracked in `recurring_jobs`.  The two paths
however manage disjoint jobs under different names, so a subscriber can
hold one timer of each kind simultaneously (see the counterexample). -/
theorem C2_amended_idempotent_arming :
    (∀ (s : BotState) (uid : UserId) (un : String) (vl : PyFloat) (eo : Bool)
        (r : CreateHttp), r.ok = true → truthy r.id = true →
        truthy r.qrCode = true → truthy r.qrCodeImage = true →
        (((gerar_cobranca uid un vl true (Except.ok r) eo s).2.1).jobs.filter
            (fun j => j.name == "retry_" ++ toString uid)).length = 1) ∧
    (∀ (today : Int) (s : BotState) (u : UserId),
        afind s.recurring_jobs u ≠ none →
        cobrancaJobsFor (preparar_cobrancas_do_dia today s).jobs u
          = cobrancaJobsFor s.jobs u) := by
  constructor
  · intro s uid un vl eo r hok hid hqr himg
    have hfields : (truthy r.qrCodeImage && truthy r.qrCode && truthy r.id) = true := by
      simp [hid, hqr, himg]
    simp only [gerar_cobranca, hok, hfields, Bool.not_true, Bool.false_eq_true,
      if_false, if_true, Bool.not_false, Bool.true_eq_false]
    exact scheduleRetryJob_retry_count _ uid
  · intro today s u h
    exact (sweep_fold_keeps_tracked _ s u h).2

/-- A subscriber whose billing day is the 5th, for the C2 scenarios. -/
def c2cliente : Cliente :=
  { username := "u", dia_pagamento := some 5,
    valor := PyFloat.finite (pqOfInt 100), ativo := true }

/-- A state with that subscriber stored and nothing armed. -/
def c2state : BotState := { BotState.empty with clientes := [(1, c2cliente)] }

/-- A well-formed create-charge response used in the C2 scenarios. -/
def c2resp : CreateHttp :=
  { ok := true, status_code := 200, text := "", id := some "pid2",
    qrCode := some "qr", qrCodeImage := some "img" }

/-- C2 witness: concrete instantiation of both conjuncts of the amended
claim — the issuance path leaves exactly one retry job even when re-armed
over an existing one, and the sweep adds nothing for a tracked subscriber. -/
theorem C2_amended_idempotent_arming_witness :
    ((((gerar_cobranca 1 "u" (PyFloat.finite (pqOfInt 100)) true (Except.ok c2resp)
        true c2state).2.1).jobs.filter
        (fun j => j.name == "retry_" ++ toString (1 : Int))).length = 1) ∧
    cobrancaJobsFor (preparar_cobrancas_do_dia 5
        { c2state with recurring_jobs := [(1, 0)] }).jobs 1
      = cobrancaJobsFor ({ c2state with recurring_jobs := [(1, 0)] } : BotState).jobs 1 :=
  ⟨C2_amended_idempotent_arming.1 c2state 1 "u" (PyFloat.finite (pqOfInt 100))
      true c2resp rfl rfl rfl rfl,
   C2_amended_idempotent_arming.2 5 { c2state with recurring_jobs := [(1, 0)] } 1
      (by decide)⟩

/-- C2 counterexample: on the billing day, the daily sweep arms a
`cobranca_1` job; a subsequent issuance-time arming for the same
subscriber adds a `retry_1` job WITHOUT cancelling it, so two repeating
charge timers are scheduled for subscriber 1 at once — refuting "at most
one retry timer job is scheduled per subscriber ... across both arming
paths". -/
theorem C2_counterexample :
    (((gerar_cobranca 1 "u" (PyFloat.finite (pqOfInt 100)) true (Except.ok c2resp)
        true (preparar_cobrancas_do_dia 5 c2state)).2.1).jobs.filter
        (fun j => decide (j.uid = 1))).length = 2 := by
  decide

/-! ### C3 -/

lemma tick_preserves_paid (ev : TickEv) (s : BotState) (u : UserId)
    (hp : afind s.paid_flags u = some true) :
    afind ((runTick ev s).1).paid_flags u = some true ∧
    ∀ a, Eff.gatewayCreate u a ∉ (runTick ev s).2 := by
  cases hk : ev.kind with
  | cobranca =>
      have hj : job_cobrar_2h ev.uid ev.today_day ev.createHttp ev.editOk s
          = Except.error attrErr := rfl
      constructor
      · simp [runTick, hk, hj]
        exact hp
      · intro a
        simp [runTick, hk, hj]
  | retry =>
      cases hc : afind s.clientes ev.uid with
      | none =>
          constructor
          · simp [runTick, hk, retry_cobranca_job, hc, removeJob]
            exact hp
          · intro a
            simp [runTick, hk, retry_cobranca_job, hc]
      | some cliente =>
          by_cases huv : ev.uid = u
          · subst huv
            have hgd : (afind s.paid_flags ev.uid).getD false = true := by rw [hp]; rfl
            constructor
            · simp [runTick, hk, retry_cobranca_job, hc, hgd, removeJob]
              exact hp
            · intro a
              simp [runTick, hk, retry_cobranca_job, hc, hgd]
          · have hue : u ≠ ev.uid := fun hh => huv hh.symm
            cases hgd : (afind s.paid_flags ev.uid).getD false with
            | true =>
                constructor
                · simp [runTick, hk, retry_cobranca_job, hc, hgd, removeJob]
                  exact hp
                · intro a
                  simp [runTick, hk, retry_cobranca_job, hc, hgd]
            | false =>
                cases hpid : afind s.last_payment_id ev.uid with
                | some pid =>
                    by_cases hvp : (((verificar_pagamento pid ev.statusHttp).1).success
                        && ((verificar_pagamento pid ev.statusHttp).1).paid) = true
                    · constructor
                      · simp [runTick, hk, retry_cobranca_job, hc, hgd, hpid, hvp,
                          removeJob, send_or_replace_text_fst, afind_ainsert_ne _ _ hue]
                        exact hp
                      · intro a
                        have h1 := noCreate_verif pid ev.statusHttp u a
                        have h2 := noCreate_sort ev.uid
                          "✅ *Pagamento confirmado!*\n\nObrigado! 🎉"
                          ({ s with paid_flags := ainsert s.paid_flags ev.uid true }) u a
                        simp [runTick, hk, retry_cobranca_job, hc, hgd, hpid, hvp,
                          removeJob, List.mem_append]
                        exact ⟨h1, h2⟩
                    · constructor
                      · have hf := gerar_paid_frame ev.uid cliente.username
                          cliente.valor false ev.createHttp ev.editOk s hue
                        simp [runTick, hk, retry_cobranca_job, hc, hgd, hpid, hvp, hf]
                        exact hp
                      · intro a
                        have h1 := noCreate_verif pid ev.statusHttp u a
                        have h2 := gerar_no_foreign_create ev.uid cliente.username
                          cliente.valor false ev.createHttp ev.editOk s hue a
                        simp [runTick, hk, retry_cobranca_job, hc, hgd, hpid, hvp,
                          List.mem_append]
                        exact ⟨h1, h2⟩
                | none =>
                    constructor
                    · have hf := gerar_paid_frame ev.uid cliente.username
                        cliente.valor false ev.createHttp ev.editOk s hue
                      simp [runTick, hk, retry_cobranca_job, hc, hgd, hpid, hf]
                      exact hp
                    · intro a
                      have h2 := gerar_no_foreign_create ev.uid cliente.username
                        cliente.valor false ev.createHttp ev.editOk s hue a
                      simp [runTick, hk, retry_cobranca_job, hc, hgd, hpid]
                      exact h2

/-- C3: once `paid_flags[u]` is true, no sequence of subsequent recurring
ticks — of either the issuance-time `retry_` job or the daily-sweep
`cobranca_` job, for any subscribers and any gateway responses — issues a
gateway create-charge call on behalf of `u`, and the flag stays true. -/
theorem C3_paid_flag_blocks_charges (evs : List TickEv) (s : BotState) (u : UserId)
    (hp : afind s.paid_flags u = some true) :
    afind ((runTicks evs s).1).paid_flags u = some true ∧
    ∀ a, Eff.gatewayCreate u a ∉ (runTicks evs s).2 := by
  induction evs generalizing s with
  | nil => exact ⟨hp, by simp [runTicks]⟩
  | cons ev r ih =>
      have hstep := tick_preserves_paid ev s u hp
      have hrest := ih ((runTick ev s).1) hstep.1
      refine ⟨hrest.1, ?_⟩
      intro a
      have h1 := hstep.2 a
      have h2 := hrest.2 a
      simp only [runTicks]
      intro hmem
      rcases List.mem_append.mp hmem with h | h
      · exact h1 h
      · exact h2 h

/-- A subscriber profile for the C3 witness. -/
def c3cliente : Cliente :=
  { username := "u", dia_pagamento := some 5,
    valor := PyFloat.finite (pqOfInt 100), ativo := true }

/-- A state where subscriber 1 has already paid this cycle. -/
def c3state : BotState :=
  { BotState.empty with clientes := [(1, c3cliente)],
                        paid_flags := [(1, true)],
                        last_payment_id := [(1, "pid1")] }

/-- A well-formed create response (would issue a charge if reached). -/
def c3resp : CreateHttp :=
  { ok := true, status_code := 200, text := "", id := some "pid2",
    qrCode := some "qr", qrCodeImage := some "img" }

/-- Two concrete ticks for subscriber 1: one retry tick with the gateway
unreachable, one daily-sweep tick on the billing day. -/
def c3ticks : List TickEv :=
  [{ kind := JobKind.retry, uid := 1, jobId := 0,
     statusHttp := Except.error "down", createHttp := Except.ok c3resp,
     editOk := true, today_day := 5 },
   { kind := JobKind.cobranca, uid := 1, jobId := 1,
     statusHttp := Except.error "down", createHttp := Except.ok c3resp,
     editOk := true, today_day := 5 }]

/-- C3 witness: both tick kinds fire after payment; no charge is issued. -/
theorem C3_paid_flag_blocks_charges_witness :
    afind c3state.paid_flags 1 = some true ∧
    afind ((runTicks c3ticks c3state).1).paid_flags 1 = some true ∧
    ∀ a, Eff.gatewayCreate 1 a ∉ (runTicks c3ticks c3state).2 :=
  ⟨rfl, (C3_paid_flag_blocks_charges c3ticks c3state 1 rfl).1,
    (C3_paid_flag_blocks_charges c3ticks c3state 1 rfl).2⟩

/-! ### C1 -/

/-- Subscriber 1's profile for the C1 scenario (billing day 15). -/
def c1cliente : Cliente :=
  { username := "u", dia_pagamento := some 15,
    valor := PyFloat.finite (pqOfInt 100), ativo := true }

/-- The state after issuance-time arming on the billing day: an active
charge "pid1", `paid_flags` false, and the repeating `retry_1` job
scheduled (as `gerar_cobranca` with `schedule_retries` leaves it);
`recurring_jobs` is empty because the daily sweep never armed this
subscriber. -/
def c1s0 : BotState :=
  { BotState.empty with
      clientes := [(1, c1cliente)],
      last_payment_id := [(1, "pid1")],
      paid_flags := [(1, false)],
      jobs := [{ id := 0, name := "retry_1", uid := 1, kind := JobKind.retry }],
      next_job_id := 1 }

/-- The user's "Já paguei" button press for the active charge. -/
def c1cb : CallbackIn := { data := "verificar_pid1", from_user := 1, message_id := 99 }

/-- Gateway status response: the charge is settled. -/
def c1paidResp : StatusHttp := { ok := true, text := "", status := some "PAID" }

/-- Create response for the tick's re-issuance. -/
def c1createResp : CreateHttp :=
  { ok := true, status_code := 200, text := "", id := some "pid2",
    qrCode := some "qr", qrCodeImage := some "img" }

/-- C1 (code bug): the registered `verificar_callback` (the second,
shadowing definition) confirms the settled payment to the user but
neither sets `paid_flags` nor cancels the `retry_1` job (it only pops
`recurring_jobs`, which tracks the other job kind).  The next retry tick
therefore still calls the gateway, and when that status lookup fails it
issues a brand-new charge — after the payment was already confirmed.
The shadowed first definition (src/bot.py:403-440) would have set
`paid_flags` and cancelled `retry_1`, as the claim (and the module
docstring "reenvio ... até confirmar pagamento") describes. -/
theorem C1_confirmed_payment_not_disarmed :
    Eff.sendText 1
        "✅ *Pagamento confirmado!*\n\nObrigado! Sua próxima cobrança virá no mês seguinte."
      ∈ (verificar_callback c1cb (Except.ok c1paidResp) c1s0).2 ∧
    ((verificar_callback c1cb (Except.ok c1paidResp) c1s0).1).jobs = c1s0.jobs ∧
    afind ((verificar_callback c1cb (Except.ok c1paidResp) c1s0).1).paid_flags 1
      = some false ∧
    Eff.gatewayStatus "pid1"
      ∈ (retry_cobranca_job 1 0 (Except.error "down") (Except.ok c1createResp) true
          ((verificar_callback c1cb (Except.ok c1paidResp) c1s0).1)).2 ∧
    Eff.gatewayCreate 1 (pyRound2 (PyFloat.finite (pqOfInt 100)))
      ∈ (retry_cobranca_job 1 0 (Except.error "down") (Except.ok c1createResp) true
          ((verificar_callback c1cb (Except.ok c1paidResp) c1s0).1)).2 ∧
    afind ((retry_cobranca_job 1 0 (Except.error "down") (Except.ok c1createResp) true
          ((verificar_callback c1cb (Except.ok c1paidResp) c1s0).1)).1).last_payment_id 1
      = some "pid2" := by
  refine ⟨?_, ?_, ?_, ?_, ?_, ?_⟩ <;> decide
